import Mathlib

/-!
Verification of the token issuer and token guard of the driver-management
service (src/jwt.js), checked against its specification.

Embedding notes:
* Clock times are natural numbers counting seconds, matching the second-based
  exp claim of a JWT; the option expiresIn of 30m adds 30 * 60 seconds to the
  issuance time.
* A string sitting in token position is modelled by `Tok`: either a
  well-formed signed token, carrying its payload, its exp claim and the secret
  it was signed with (the symbolic model of an HMAC signature, which verifies
  against exactly that secret), or an arbitrary other string, which no secret
  verifies.
* The authorization header is modelled by the list of segments produced by the
  JavaScript split on the space character. A well-formed JWT is base64url
  material and contains no space, so it occupies exactly one segment; hence
  each segment is itself a `Tok`. The JavaScript expression split(" ")[1] is
  indexing this list at position 1, and a missing header gives `none`.
* The middleware authenticate(req, res, next) is modelled as a pure function
  from the request (and the process-wide secret and the clock) to a record of:
  the request afterwards, whether next() was called, and the HTTP response
  (status code and message) sent through res, if any.
-/

namespace DriverAuth

/-- Payload of an issued token. In generateToken the payload is built with the
single field id taken from the user object, so the claim type has exactly that
field. -/
structure Claim where
  id : Nat
deriving DecidableEq

/-- User object handed to generateToken by the login route, which passes an
object carrying the row id and the username. -/
structure User where
  id : Nat
  username : String
deriving DecidableEq

/-- Token-position strings: a well-formed signed token, or any other (corrupt,
malformed, or arbitrary) string. -/
inductive Tok where
  | signed (claim : Claim) (exp : Nat) (secret : String)
  | garbage (s : String)
deriving DecidableEq

/-- Falsiness of the extracted token string in the JavaScript check on token
absence: among strings only the empty string is falsy, and a well-formed
signed token is never the empty string. -/
def Tok.isFalsy : Tok → Bool
  | .garbage s => s = ""
  | .signed _ _ _ => false

/-- Expiry claim carried by a token, when it is well formed. -/
def Tok.expiryOf : Tok → Option Nat
  | .signed _ e _ => some e
  | .garbage _ => none

/-- Issuer, src/jwt.js lines 4 to 8: sign the payload consisting of the single
field id with the process secret, with expiresIn of 30m, i.e. an exp claim of
issuance time plus 30 * 60 seconds. -/
def generateToken (user : User) (secret : String) (now : Nat) : Tok :=
  Tok.signed { id := user.id } (now + 30 * 60) secret

/-- Errors thrown by the verify step of the jsonwebtoken library:
JsonWebTokenError for a malformed token or a bad signature, TokenExpiredError
for a valid signature past its exp claim. -/
inductive VerifyError where
  | invalidToken
  | tokenExpired
deriving DecidableEq

/-- Model of jwt.verify(token, secret) at clock time now: a malformed string,
or a signature made with a different secret, throws JsonWebTokenError; with a
valid signature, TokenExpiredError is thrown when now has reached the exp
claim; otherwise the decoded payload is returned. The signature is checked
before expiry, so a wrong-secret token that is also expired is invalid, not
expired. -/
def verify (t : Tok) (secret : String) (now : Nat) : Except VerifyError Claim :=
  match t with
  | .garbage _ => Except.error VerifyError.invalidToken
  | .signed c e s =>
    if s = secret then
      if e ≤ now then Except.error VerifyError.tokenExpired
      else Except.ok c
    else Except.error VerifyError.invalidToken

/-- Incoming request, as the guard sees it: the authorization header (absent,
or split into its space-separated segments) and the user attachment that the
guard may set. -/
structure Request where
  authorization : Option (List Tok)
  user : Option Claim
deriving DecidableEq

/-- Observable effect of one middleware run: the request afterwards, whether
next() was called, and the response (status, message) sent, if any. -/
structure MwResult where
  req : Request
  nextCalled : Bool
  response : Option (Nat × String)
deriving DecidableEq

/-- Token extraction, src/jwt.js line 12: read the authorization header and
take the second space-separated segment, if any. -/
def extractToken (req : Request) : Option Tok :=
  req.authorization.bind (fun segs => segs[1]?)

/-- Response sent when the extracted token is absent or falsy, src/jwt.js
lines 13 to 15. -/
def noTokenResponse (req : Request) : MwResult :=
  { req := req, nextCalled := false
    response := some (401, "Access denied. No token provided.") }

/-- Guard middleware, src/jwt.js lines 11 to 27: extract the token; reject
with 401 when it is missing or empty; verify it and on success attach the
decoded claim to the request and call next(); on TokenExpiredError reply 401,
on any other verification error reply 400. -/
def authenticate (secret : String) (now : Nat) (req : Request) : MwResult :=
  match extractToken req with
  | none => noTokenResponse req
  | some t =>
    if t.isFalsy then noTokenResponse req
    else
      match verify t secret now with
      | Except.ok c =>
        { req := { req with user := some c }, nextCalled := true, response := none }
      | Except.error VerifyError.tokenExpired =>
        { req := req, nextCalled := false
          response := some (401, "Token has expired. Please log in again.") }
      | Except.error VerifyError.invalidToken =>
        { req := req, nextCalled := false
          response := some (400, "Invalid token.") }

/-- Request carrying the standard header form, the scheme word Bearer followed
by one token segment. -/
def bearerReq (t : Tok) (u0 : Option Claim) : Request :=
  { authorization := some [Tok.garbage "Bearer", t], user := u0 }

theorem authenticate_extract_none (secret : String) (now : Nat) (req : Request)
    (h : extractToken req = none) :
    authenticate secret now req = noTokenResponse req := by
  simp [authenticate, h]

theorem authenticate_extract_some (secret : String) (now : Nat) (req : Request) (t : Tok)
    (h : extractToken req = some t) :
    authenticate secret now req =
      if t.isFalsy then noTokenResponse req
      else
        match verify t secret now with
        | Except.ok c =>
          { req := { req with user := some c }, nextCalled := true, response := none }
        | Except.error VerifyError.tokenExpired =>
          { req := req, nextCalled := false
            response := some (401, "Token has expired. Please log in again.") }
        | Except.error VerifyError.invalidToken =>
          { req := req, nextCalled := false
            response := some (400, "Invalid token.") } := by
  simp [authenticate, h]

theorem authenticate_shape (secret : String) (now : Nat) (req : Request) :
    (∃ t c, extractToken req = some t ∧ t.isFalsy = false ∧
      verify t secret now = Except.ok c ∧
      authenticate secret now req =
        { req := { req with user := some c }, nextCalled := true, response := none }) ∨
    (∃ p, authenticate secret now req =
      { req := req, nextCalled := false, response := some p }) := by
  cases hx : extractToken req with
  | none =>
    right
    exact ⟨_, authenticate_extract_none secret now req hx⟩
  | some t =>
    rw [authenticate_extract_some secret now req t hx]
    by_cases hf : t.isFalsy = true
    · right
      exact ⟨(401, "Access denied. No token provided."), by simp [hf, noTokenResponse]⟩
    · rw [Bool.not_eq_true] at hf
      rw [if_neg (by simp [hf])]
      cases hv : verify t secret now with
      | ok c =>
        left
        exact ⟨t, c, rfl, hf, hv, rfl⟩
      | error e =>
        right
        cases e <;> exact ⟨_, rfl⟩

/-- C1: issuing a token with generateToken and then authorizing it with the
same secret at any clock time within 30 minutes of issuance succeeds: next()
is called, no error response is sent, and the attached decoded claim carries
the issued subject identifier. -/
theorem issue_then_authorize (u : User) (secret : String) (t0 now : Nat) (u0 : Option Claim)
    (h : now < t0 + 30 * 60) :
    (authenticate secret now (bearerReq (generateToken u secret t0) u0)).nextCalled = true ∧
    (authenticate secret now (bearerReq (generateToken u secret t0) u0)).response = none ∧
    (authenticate secret now (bearerReq (generateToken u secret t0) u0)).req.user =
      some { id := u.id } := by
  have hx : extractToken (bearerReq (generateToken u secret t0) u0) =
      some (generateToken u secret t0) := rfl
  rw [authenticate_extract_some _ _ _ _ hx]
  have hlt : ¬ (t0 + 30 * 60 ≤ now) := by omega
  simp [generateToken, Tok.isFalsy, verify, hlt]

theorem issue_then_authorize_witness :
    (0 : Nat) < 5 + 30 * 60 ∧
    ((authenticate "sk" 0 (bearerReq (generateToken ⟨42, "alice"⟩ "sk" 5) none)).nextCalled = true ∧
     (authenticate "sk" 0 (bearerReq (generateToken ⟨42, "alice"⟩ "sk" 5) none)).response = none ∧
     (authenticate "sk" 0 (bearerReq (generateToken ⟨42, "alice"⟩ "sk" 5) none)).req.user =
       some { id := 42 }) :=
  ⟨by decide, issue_then_authorize ⟨42, "alice"⟩ "sk" 5 0 none (by decide)⟩

/-- C2: a request carrying a token whose signature verifies against the
guard's secret but whose exp claim has been reached is rejected with exactly
the 401 TokenExpired response, never the 400 InvalidToken one, and next() is
not called. -/
theorem expired_rejected (secret : String) (now : Nat) (req : Request) (c : Claim) (e : Nat)
    (ht : extractToken req = some (Tok.signed c e secret)) (h : e ≤ now) :
    (authenticate secret now req).response =
      some (401, "Token has expired. Please log in again.") ∧
    (authenticate secret now req).nextCalled = false := by
  rw [authenticate_extract_some _ _ _ _ ht]
  simp [Tok.isFalsy, verify, h]

theorem expired_rejected_witness :
    extractToken (bearerReq (Tok.signed ⟨7⟩ 100 "sk") none) =
      some (Tok.signed ⟨7⟩ 100 "sk") ∧
    (100 : Nat) ≤ 101 ∧
    ((authenticate "sk" 101 (bearerReq (Tok.signed ⟨7⟩ 100 "sk") none)).response =
       some (401, "Token has expired. Please log in again.") ∧
     (authenticate "sk" 101 (bearerReq (Tok.signed ⟨7⟩ 100 "sk") none)).nextCalled = false) :=
  ⟨rfl, by decide,
    expired_rejected "sk" 101 (bearerReq (Tok.signed ⟨7⟩ 100 "sk") none) ⟨7⟩ 100 rfl (by decide)⟩

/-- C3: a request carrying a token signed with a secret different from the
guard's configured secret, or carrying a corrupt or malformed nonempty token
string, is rejected with the 400 InvalidToken response, and next() is not
called. -/
theorem invalid_rejected (secret : String) (now : Nat) (req : Request) (t : Tok)
    (ht : extractToken req = some t)
    (hbad : (∃ c e s, t = Tok.signed c e s ∧ s ≠ secret) ∨
            (∃ g, t = Tok.garbage g ∧ g ≠ "")) :
    (authenticate secret now req).response = some (400, "Invalid token.") ∧
    (authenticate secret now req).nextCalled = false := by
  rw [authenticate_extract_some _ _ _ _ ht]
  rcases hbad with ⟨c, e, s, rfl, hs⟩ | ⟨g, rfl, hg⟩
  · simp [Tok.isFalsy, verify, hs]
  · simp [Tok.isFalsy, verify, hg]

theorem invalid_rejected_witness :
    extractToken (bearerReq (Tok.signed ⟨7⟩ 9999 "other") none) =
      some (Tok.signed ⟨7⟩ 9999 "other") ∧
    "other" ≠ "sk" ∧
    ((authenticate "sk" 3 (bearerReq (Tok.signed ⟨7⟩ 9999 "other") none)).response =
       some (400, "Invalid token.") ∧
     (authenticate "sk" 3 (bearerReq (Tok.signed ⟨7⟩ 9999 "other") none)).nextCalled = false) :=
  ⟨rfl, by decide,
    invalid_rejected "sk" 3 (bearerReq (Tok.signed ⟨7⟩ 9999 "other") none)
      (Tok.signed ⟨7⟩ 9999 "other") rfl
      (Or.inl ⟨⟨7⟩, 9999, "other", rfl, by decide⟩)⟩

/-- C4: a request whose authorization header is absent, or whose header has no
second space-separated segment, is rejected with the 401 NoToken response,
next() is not called, and no verification is attempted: the outcome does not
depend on the secret or on the clock. -/
theorem no_token_rejected (secret : String) (now : Nat) (secret' : String) (now' : Nat)
    (req : Request)
    (h : req.authorization = none ∨
         ∃ segs, req.authorization = some segs ∧ segs[1]? = none) :
    (authenticate secret now req).response =
      some (401, "Access denied. No token provided.") ∧
    (authenticate secret now req).nextCalled = false ∧
    authenticate secret' now' req = authenticate secret now req := by
  have hx : extractToken req = none := by
    rcases h with h | ⟨segs, h1, h2⟩
    · simp [extractToken, h]
    · simp [extractToken, h1, h2]
  rw [authenticate_extract_none secret now req hx, authenticate_extract_none secret' now' req hx]
  simp [noTokenResponse]

theorem no_token_rejected_witness :
    (∃ segs, ({ authorization := some [Tok.garbage "Bearer"], user := none } : Request).authorization =
        some segs ∧ segs[1]? = (none : Option Tok)) ∧
    ((authenticate "sk" 0 { authorization := some [Tok.garbage "Bearer"], user := none }).response =
       some (401, "Access denied. No token provided.") ∧
     (authenticate "sk" 0 { authorization := some [Tok.garbage "Bearer"], user := none }).nextCalled = false ∧
     authenticate "other" 77 { authorization := some [Tok.garbage "Bearer"], user := none } =
       authenticate "sk" 0 { authorization := some [Tok.garbage "Bearer"], user := none }) :=
  ⟨⟨[Tok.garbage "Bearer"], rfl, rfl⟩,
    no_token_rejected "sk" 0 "other" 77 { authorization := some [Tok.garbage "Bearer"], user := none }
      (Or.inr ⟨[Tok.garbage "Bearer"], rfl, rfl⟩)⟩

/-- C5: every token produced by generateToken is well formed and carries an
exp claim equal to its issuance time plus exactly 30 minutes, the same fixed
constant for every user and secret. -/
theorem token_lifetime (u : User) (secret : String) (t0 : Nat) :
    generateToken u secret t0 = Tok.signed { id := u.id } (t0 + 30 * 60) secret ∧
    Tok.expiryOf (generateToken u secret t0) = some (t0 + 30 * 60) :=
  ⟨rfl, rfl⟩

/-- C6: the scheme word of the authorization header is never checked: for any
first segment the guard behaves exactly as it does for the segment Bearer,
and a header whose second segment is a nonempty string that is not a valid
signed token is rejected with the 400 InvalidToken response, not accepted. -/
theorem scheme_never_checked (w : Tok) (g : String) (rest : List Tok) (secret : String)
    (now : Nat) (u0 : Option Claim) (hg : g ≠ "") :
    (∀ t : Tok,
      (authenticate secret now { authorization := some (w :: t :: rest), user := u0 }).nextCalled =
        (authenticate secret now
          { authorization := some (Tok.garbage "Bearer" :: t :: rest), user := u0 }).nextCalled ∧
      (authenticate secret now { authorization := some (w :: t :: rest), user := u0 }).response =
        (authenticate secret now
          { authorization := some (Tok.garbage "Bearer" :: t :: rest), user := u0 }).response ∧
      (authenticate secret now { authorization := some (w :: t :: rest), user := u0 }).req.user =
        (authenticate secret now
          { authorization := some (Tok.garbage "Bearer" :: t :: rest), user := u0 }).req.user) ∧
    (authenticate secret now
      { authorization := some (w :: Tok.garbage g :: rest), user := u0 }).response =
        some (400, "Invalid token.") ∧
    (authenticate secret now
      { authorization := some (w :: Tok.garbage g :: rest), user := u0 }).nextCalled = false := by
  constructor
  · intro t
    have h1 : extractToken { authorization := some (w :: t :: rest), user := u0 } = some t := by
      simp [extractToken]
    have h2 : extractToken
        { authorization := some (Tok.garbage "Bearer" :: t :: rest), user := u0 } = some t := by
      simp [extractToken]
    rw [authenticate_extract_some _ _ _ _ h1, authenticate_extract_some _ _ _ _ h2]
    by_cases hf : t.isFalsy = true
    · simp [hf, noTokenResponse]
    · rw [Bool.not_eq_true] at hf
      simp only [hf, Bool.false_eq_true, if_false]
      cases hv : verify t secret now with
      | ok c => simp
      | error e => cases e <;> simp
  · have h1 : extractToken
        { authorization := some (w :: Tok.garbage g :: rest), user := u0 } =
          some (Tok.garbage g) := by
      simp [extractToken]
    rw [authenticate_extract_some _ _ _ _ h1]
    simp [Tok.isFalsy, verify, hg]

theorem scheme_never_checked_witness :
    (authenticate "sk" 0
      { authorization := some [Tok.garbage "Token", Tok.garbage "abc"], user := none }).response =
        some (400, "Invalid token.") ∧
    (authenticate "sk" 0
      { authorization := some [Tok.garbage "Token", Tok.garbage "abc"], user := none }).nextCalled =
        false :=
  (scheme_never_checked (Tok.garbage "Token") "abc" [] "sk" 0 none (by decide)).2

/-- C7: the guard is deterministic and free of side effects on its inputs:
it never changes the authorization header, and running it again on the request
it produced, with the same secret and the same clock, yields the very same
result, decoded claim included. -/
theorem authorize_idempotent (secret : String) (now : Nat) (req : Request) :
    (authenticate secret now req).req.authorization = req.authorization ∧
    authenticate secret now ((authenticate secret now req).req) =
      authenticate secret now req := by
  rcases authenticate_shape secret now req with ⟨t, c, hx, hf, hv, heq⟩ | ⟨p, heq⟩
  · have hx2 : extractToken { req with user := some c } = some t := hx
    refine ⟨by rw [heq], ?_⟩
    rw [heq]
    show authenticate secret now { req with user := some c } =
      ({ req := { req with user := some c }, nextCalled := true, response := none } : MwResult)
    rw [authenticate_extract_some secret now { req with user := some c } t hx2]
    simp [hf, hv]
  · refine ⟨by rw [heq], ?_⟩
    rw [heq]
    exact heq

/-- C8: a request whose authorization header does have a second
space-separated segment, but an empty one (for instance a header ending in a
trailing space, or one with two consecutive spaces before the token), is
rejected with the 401 NoToken response, not the 400 InvalidToken one, and
next() is not called: the extracted empty string is treated like an absent
token. -/
theorem empty_segment_no_token (secret : String) (now : Nat) (req : Request) (segs : List Tok)
    (h1 : req.authorization = some segs) (h2 : segs[1]? = some (Tok.garbage "")) :
    (authenticate secret now req).response =
      some (401, "Access denied. No token provided.") ∧
    (authenticate secret now req).nextCalled = false := by
  have hx : extractToken req = some (Tok.garbage "") := by
    simp [extractToken, h1, h2]
  rw [authenticate_extract_some _ _ _ _ hx]
  simp [Tok.isFalsy, noTokenResponse]

theorem empty_segment_no_token_witness :
    ({ authorization := some [Tok.garbage "Bearer", Tok.garbage ""], user := none } : Request).authorization =
      some [Tok.garbage "Bearer", Tok.garbage ""] ∧
    ([Tok.garbage "Bearer", Tok.garbage ""][1]? = some (Tok.garbage "")) ∧
    ((authenticate "sk" 0
        { authorization := some [Tok.garbage "Bearer", Tok.garbage ""], user := none }).response =
          some (401, "Access denied. No token provided.") ∧
     (authenticate "sk" 0
        { authorization := some [Tok.garbage "Bearer", Tok.garbage ""], user := none }).nextCalled =
          false) :=
  ⟨rfl, rfl,
    empty_segment_no_token "sk" 0
      { authorization := some [Tok.garbage "Bearer", Tok.garbage ""], user := none }
      [Tok.garbage "Bearer", Tok.garbage ""] rfl rfl⟩

/-- C9: every run of the guard has exactly one terminal outcome: either
verification succeeded, next() was called, no response was sent and the only
change to the request is the attached decoded claim, or the request was
rejected, a response was sent, next() was not called and the request, its
user field included, is left completely unchanged. -/
theorem guard_single_outcome (secret : String) (now : Nat) (req : Request) :
    ((authenticate secret now req).nextCalled = true ∧
     (authenticate secret now req).response = none ∧
     ∃ c, (authenticate secret now req).req = { req with user := some c }) ∨
    ((authenticate secret now req).nextCalled = false ∧
     (authenticate secret now req).response.isSome = true ∧
     (authenticate secret now req).req = req) := by
  rcases authenticate_shape secret now req with ⟨t, c, _, _, _, heq⟩ | ⟨p, heq⟩
  · left
    rw [heq]
    exact ⟨rfl, rfl, c, rfl⟩
  · right
    rw [heq]
    exact ⟨rfl, rfl, rfl⟩

/-- C10: the payload embedded by generateToken contains only the subject
identifier: the issued token does not depend on the username passed alongside
the id by the login route, it is exactly the signed claim with the single
field id, and the request context attached on a successful authorize is that
claim, carrying no display name. -/
theorem payload_contains_only_id (id0 : Nat) (n1 n2 : String) (secret : String) (t0 : Nat)
    (u0 : Option Claim) :
    generateToken { id := id0, username := n1 } secret t0 =
      generateToken { id := id0, username := n2 } secret t0 ∧
    generateToken { id := id0, username := n1 } secret t0 =
      Tok.signed { id := id0 } (t0 + 30 * 60) secret ∧
    (authenticate secret t0
        (bearerReq (generateToken { id := id0, username := n1 } secret t0) u0)).req.user =
      some { id := id0 } := by
  refine ⟨rfl, rfl, ?_⟩
  have hx : extractToken (bearerReq (generateToken { id := id0, username := n1 } secret t0) u0) =
      some (generateToken { id := id0, username := n1 } secret t0) := rfl
  rw [authenticate_extract_some _ _ _ _ hx]
  have hlt : ¬ (t0 + 30 * 60 ≤ t0) := by omega
  simp [generateToken, Tok.isFalsy, verify, hlt]

end DriverAuth
